import Mathlib

/-!
Verification development for the ZenHub review/QA duration monitor.

The definitions below are a shallow embedding of the TypeScript sources:
  - src/types.ts               (data model)
  - src/utils/time.ts          (duration arithmetic and formatting)
  - src/clients/zenhub.ts      (REST raw records, event extraction, snapshot mapper)
  - src/clients/graphql.ts     (GraphQL timeline extraction)
  - src/runner.ts              (state-aware run variant: per-item resolution,
                                record computation, ranking, state update)
  - src/main.ts                (notification filter, message composition,
                                sendEmptyReport gate, webhook error handling)
  - test/state.spec.ts         (updateState helper, the in-repo state update)

Timestamps are ISO strings; wall-clock milliseconds are modelled as Int and the
ambient Date.parse as an explicit function parameter parseIso. JavaScript
number arithmetic on durations is modelled with Int (exact for safe integers)
and with the rationals where the code produces fractional values.
-/

structure RepoRef where
  owner : String
  name : String
deriving Repr, DecidableEq

def makeIssueKey (repo : RepoRef) (issueNumber : Nat) : String :=
  repo.owner ++ "/" ++ repo.name ++ "#" ++ toString issueNumber

structure IssuePipelineSnapshot where
  issueNumber : Nat
  repo : RepoRef
  title : String
  assignees : List String
  pipeline : String
  pipelineEnteredAt : String
  updatedAt : String
  type : String
  state : String
  createdAt : String
  isPullRequest : Bool
  isDraft : Option Bool
deriving Repr, DecidableEq

/-- PersistedState from src/types.ts; the Record of JS objects keyed by
issue key is modelled as a lookup function. -/
structure PersistedState where
  issues : String → Option IssuePipelineSnapshot
  lastRun : Option String
  schemaVersion : Nat

def CURRENT_STATE_SCHEMA_VERSION : Nat := 1

def emptyPersistedState : PersistedState :=
  { issues := fun _ => none, lastRun := none, schemaVersion := CURRENT_STATE_SCHEMA_VERSION }

/-- JavaScript truthiness of a value typed string-or-undefined: undefined and
the empty string are falsy. -/
def truthyStr : Option String → Bool
  | none => false
  | some s => !(s == "")

/-- JavaScript a || b for a of type string-or-undefined: returns a when truthy,
otherwise b. -/
def jsOrStr (a : Option String) (b : String) : String :=
  match a with
  | some s => if s == "" then b else s
  | none => b

/-! Duration helpers from src/utils/time.ts. -/

def msToMinutes (ms : Int) : Int :=
  Int.fdiv ms 60000

def msToHours (ms : Int) : ℚ :=
  (ms : ℚ) / 3600000

/-- Rounding to two decimals: models parseFloat(x.toFixed(2)); toFixed picks
the nearest hundredth, preferring the larger on ties, which is Mathlib round. -/
def roundTo2 (q : ℚ) : ℚ :=
  ((round (q * 100) : ℤ) : ℚ) / 100

/-- humanDuration from src/utils/time.ts. Math.floor is Int.fdiv; the JS
remainder operator keeps the sign of the dividend, which is Int.tmod. -/
def humanDuration (ms : Int) : String :=
  let totalMinutes := Int.fdiv ms 60000
  let days := Int.fdiv totalMinutes (60 * 24)
  let hours := Int.fdiv (totalMinutes - days * 24 * 60) 60
  let minutes := Int.tmod totalMinutes 60
  let parts : List String :=
    (if days ≠ 0 then [toString days ++ "d"] else [])
      ++ (if hours ≠ 0 then [toString hours ++ "h"] else [])
      ++ [toString minutes ++ "m"]
  String.intercalate " " parts

/-! REST client from src/clients/zenhub.ts. -/

/-- Raw per-item record from the ZenHub board (ZenHubIssueRaw). -/
structure ZenHubIssueRaw where
  issueNumber : Nat
  title : String
  assignees : List String
  pipeline : String
  pipelineEnteredAt : Option String
deriving Repr, DecidableEq

/-- One pipeline-history event from the REST events endpoint. The alternate
snake-case JSON keys of the untyped payload (to_pipeline.name and created_at,
consulted by the || chains in the source) are collapsed into the two fields. -/
structure ZenHubEvent where
  type : String
  toPipelineName : Option String
  createdAt : Option String
deriving Repr, DecidableEq

def extractPipelineEnteredAtGo : List ZenHubEvent → String → Option String
  | [], _ => none
  | ev :: rest, targetPipeline =>
    if (ev.type == "transferIssue" || ev.type == "pipeline:transfer")
        && ev.toPipelineName == some targetPipeline && truthyStr ev.createdAt then
      ev.createdAt
    else
      extractPipelineEnteredAtGo rest targetPipeline

/-- ZenHubClient.extractPipelineEnteredAt: scan events from most recent to
oldest for the latest transfer into the target pipeline. -/
def extractPipelineEnteredAt (events : List ZenHubEvent) (targetPipeline : String) :
    Option String :=
  extractPipelineEnteredAtGo events.reverse targetPipeline

/-- mapRawToSnapshot from src/clients/zenhub.ts; the source uses nullish
coalescing, so an empty-string pipelineEnteredAt on the raw record is kept. -/
def mapRawToSnapshot (repo : RepoRef) (raw : ZenHubIssueRaw) (nowIso : String)
    (fallbackEnteredAt : String) : IssuePipelineSnapshot :=
  { issueNumber := raw.issueNumber
    repo := repo
    title := raw.title
    assignees := raw.assignees
    pipeline := raw.pipeline
    pipelineEnteredAt := raw.pipelineEnteredAt.getD fallbackEnteredAt
    updatedAt := nowIso
    type := "ZenhubIssue"
    state := "OPEN"
    createdAt := nowIso
    isPullRequest := false
    isDraft := none }

/-! GraphQL client from src/clients/graphql.ts. -/

/-- A transferEvents node of the issue timeline query. -/
structure TransferEventNode where
  toPipelineName : Option String
  createdAt : Option String
deriving Repr, DecidableEq

def extractPipelineEnteredAtFromTimelineGo : List TransferEventNode → String → Option String
  | [], _ => none
  | ev :: rest, targetPipeline =>
    if ev.toPipelineName == some targetPipeline && truthyStr ev.createdAt then
      ev.createdAt
    else
      extractPipelineEnteredAtFromTimelineGo rest targetPipeline

def extractPipelineEnteredAtFromTimeline (events : List TransferEventNode)
    (targetPipeline : String) : Option String :=
  extractPipelineEnteredAtFromTimelineGo events.reverse targetPipeline

/-! Persisted state store. -/

/-- Modelled from the spec: the runner imports findExistingSnapshot from
src/storage/state.ts, a file absent from the sources; section 4.3 of the spec
defines it as a point lookup of the persisted snapshot by composite key. -/
def findExistingSnapshot (st : PersistedState) (repo : RepoRef) (issueNumber : Nat) :
    Option IssuePipelineSnapshot :=
  st.issues (makeIssueKey repo issueNumber)

/-- The object-spread copy plus per-snapshot key assignment of the updateState
helper in test/state.spec.ts, as a function update. -/
def applySnapshots (issues : String → Option IssuePipelineSnapshot)
    (snapshots : List IssuePipelineSnapshot) : String → Option IssuePipelineSnapshot :=
  snapshots.foldl
    (fun acc snap k =>
      if k = makeIssueKey snap.repo snap.issueNumber then some snap else acc k)
    issues

/-- updateState from test/state.spec.ts (the state store is implemented there;
src/storage/state.ts itself is absent). The Date call for lastRun is the
explicit nowIso parameter. -/
def updateState (prev : PersistedState) (snapshots : List IssuePipelineSnapshot)
    (nowIso : String) : PersistedState :=
  { prev with
    lastRun := some nowIso
    issues := applySnapshots prev.issues snapshots }

/-! Per-item timestamp resolution from the state-aware run in src/runner.ts. -/

/-- The fallbackEnteredAt expression shared by both per-item paths:
enteredAt || (existing && existing.pipeline === currentPipeline
  ? existing.pipelineEnteredAt : nowIso). -/
def resolveFallbackEnteredAt (enteredAt : Option String)
    (existing : Option IssuePipelineSnapshot) (currentPipeline nowIso : String) : String :=
  jsOrStr enteredAt
    (match existing with
     | some ex => if ex.pipeline = currentPipeline then ex.pipelineEnteredAt else nowIso
     | none => nowIso)

/-- The REST-path enteredAt computation: none when no repoId was available (no
fetch attempted) or the events fetch threw (caught and logged); otherwise the
event-history extraction. -/
def restEnteredAt (eventsResult : Option (Except String (List ZenHubEvent)))
    (pipeline : String) : Option String :=
  match eventsResult with
  | none => none
  | some (Except.error _) => none
  | some (Except.ok events) => extractPipelineEnteredAt events pipeline

/-- One REST-path loop iteration of the state-aware run (scope filter,
timestamp resolution, strict-mode skip, snapshot mapping); none means the item
produced no snapshot. -/
def processRestItem (targetPipelines : List String) (strict : Bool)
    (prevState : PersistedState) (repo : RepoRef) (raw : ZenHubIssueRaw)
    (eventsResult : Option (Except String (List ZenHubEvent))) (nowIso : String) :
    Option IssuePipelineSnapshot :=
  if !(targetPipelines.contains raw.pipeline) then none
  else
    let enteredAt := restEnteredAt eventsResult raw.pipeline
    let existing := findExistingSnapshot prevState repo raw.issueNumber
    let fallbackEnteredAt := resolveFallbackEnteredAt enteredAt existing raw.pipeline nowIso
    if !(truthyStr enteredAt) && strict then none
    else some (mapRawToSnapshot repo { raw with pipelineEnteredAt := enteredAt }
      nowIso fallbackEnteredAt)

/-- One issue node of the workspace GraphQL query, with the optional chains of
the source flattened (pipelineName is node.pipelineIssue?.pipeline?.name). -/
structure WorkspaceIssueNode where
  number : Nat
  title : String
  type : String
  state : String
  createdAt : String
  updatedAt : String
  pullRequest : Bool
  repoOwner : String
  repoName : String
  assigneeLogins : List String
  pipelineName : Option String
deriving Repr, DecidableEq

/-- The GraphQL-path enteredAt computation: extraction from the fetched
timeline, except that a failed timeline query is caught and the catch block
substitutes node.updatedAt. -/
def graphqlEnteredAt (timeline : Except String (List TransferEventNode))
    (node : WorkspaceIssueNode) (currentPipeline : String) : Option String :=
  match timeline with
  | Except.ok events => extractPipelineEnteredAtFromTimeline events currentPipeline
  | Except.error _ => some node.updatedAt

/-- One GraphQL-path loop iteration of the state-aware run; isDraft is the
outcome of the best-effort GitHub enrichment (none when absent or failed). -/
def processGraphQLItem (targetPipelines : List String) (strict : Bool)
    (prevState : PersistedState) (node : WorkspaceIssueNode) (isDraft : Option Bool)
    (timeline : Except String (List TransferEventNode)) (nowIso : String) :
    Option IssuePipelineSnapshot :=
  match node.pipelineName with
  | none => none
  | some currentPipeline =>
    if currentPipeline == "" || !(targetPipelines.contains currentPipeline) then none
    else
      let repoRef : RepoRef := { owner := node.repoOwner, name := node.repoName }
      let enteredAt := graphqlEnteredAt timeline node currentPipeline
      let existing := findExistingSnapshot prevState repoRef node.number
      let fallbackEnteredAt := resolveFallbackEnteredAt enteredAt existing currentPipeline nowIso
      if !(truthyStr enteredAt) && strict then none
      else some
        { issueNumber := node.number
          repo := repoRef
          title := node.title
          assignees := node.assigneeLogins
          pipeline := currentPipeline
          pipelineEnteredAt := fallbackEnteredAt
          updatedAt := nowIso
          type := node.type
          state := node.state
          createdAt := node.createdAt
          isPullRequest := node.pullRequest
          isDraft := isDraft }

/-! Duration records, ranking and notification from src/runner.ts and
src/main.ts. -/

structure IssueDurationRecord extends IssuePipelineSnapshot where
  durationMs : Int
  durationMinutes : Int
  durationHours : ℚ
  durationHuman : String
  assigneesCount : Nat
  assigneesDisplay : String
  typeDisplay : String
  draftDisplay : String
  githubUrl : String
deriving Repr, DecidableEq

/-- The records map of the run: durationMs = Date.now() - Date.parse(s.pipelineEnteredAt)
with Date.parse as parseIso and Date.now() as nowMs; the derived display fields
follow the source expressions. -/
def mkDurationRecord (parseIso : String → Int) (nowMs : Int)
    (s : IssuePipelineSnapshot) : IssueDurationRecord :=
  let durationMs := nowMs - parseIso s.pipelineEnteredAt
  let isDraftPR := s.isPullRequest && s.isDraft.getD false
  { toIssuePipelineSnapshot := s
    durationMs := durationMs
    durationMinutes := msToMinutes durationMs
    durationHours := roundTo2 (msToHours durationMs)
    durationHuman := humanDuration durationMs
    assigneesCount := s.assignees.length
    assigneesDisplay :=
      if 0 < s.assignees.length then String.intercalate ", " s.assignees else "Unassigned"
    typeDisplay :=
      if s.isPullRequest then
        (if isDraftPR then "Draft Pull Request" else "Pull Request")
      else "Issue"
    draftDisplay :=
      if s.isPullRequest then
        (match s.isDraft with
         | some true => "Draft"
         | some false => "Ready"
         | none => "Unknown")
      else "N/A"
    githubUrl :=
      "https://github.com/" ++ s.repo.owner ++ "/" ++ s.repo.name ++ "/"
        ++ (if s.isPullRequest then "pull" else "issues") ++ "/" ++ toString s.issueNumber }

/-- records.sort((a, b) => b.durationMs - a.durationMs): Array.prototype.sort
is stable and orders a before b exactly when the comparator is nonpositive,
which for this comparator is b.durationMs <= a.durationMs. -/
def sortRecords (records : List IssueDurationRecord) : List IssueDurationRecord :=
  records.mergeSort (fun a b => decide (b.durationMs ≤ a.durationMs))

def REVIEW_DEADLINE_DAYS : ℚ := 3
def WARNING_THRESHOLD_DAYS : ℚ := 5
def URGENT_THRESHOLD_DAYS : ℚ := 7

/-- The notification filter of src/main.ts: assigned, non-pull-request, and at
or past the review deadline in days. -/
def qualifiesForAlert (r : IssueDurationRecord) : Bool :=
  decide (0 < r.assigneesCount) && !r.isPullRequest
    && decide (REVIEW_DEADLINE_DAYS ≤ r.durationHours / 24)

def assignedIssues (records : List IssueDurationRecord) : List IssueDurationRecord :=
  records.filter qualifiesForAlert

/-- The severity marker selection of src/main.ts. -/
def issueEmoji (durationDays : ℚ) : String :=
  if durationDays < WARNING_THRESHOLD_DAYS then "⚠️"
  else if durationDays < URGENT_THRESHOLD_DAYS then "🚨"
  else "😱"

/-- String.prototype.padEnd with a space pad. The display strings padded by the
source are ASCII, where JS length and codepoint length agree. -/
def padEnd (s : String) (targetLength : Nat) : String :=
  s ++ String.mk (List.replicate (targetLength - s.length) ' ')

def separatorLine : String := "   ─────────────────────────────────\n"

/-- One assigned-issue block of the Slack text, with the trailing separator
emitted for every element except the last. -/
def issueEntry (maxNameLength maxDurationLength : Nat) (withSeparator : Bool)
    (r : IssueDurationRecord) : String :=
  issueEmoji (r.durationHours / 24) ++ " " ++ padEnd r.assigneesDisplay maxNameLength
    ++ "  " ++ padEnd r.durationHuman maxDurationLength ++ "\n"
    ++ "   " ++ r.githubUrl ++ "\n"
    ++ "   " ++ r.title ++ "\n"
    ++ (if withSeparator then separatorLine else "")
    ++ "\n"

def allClearMessage : String := "✅ Great work! All reviews are on track. 🎉"

/-- The textSummary composition of src/main.ts. The template literal
interpolates REVIEW_DEADLINE_DAYS, which prints as 3. -/
def buildTextSummary (assigned : List IssueDurationRecord) : String :=
  if 0 < assigned.length then
    let maxNameLength := (assigned.map (fun r => r.assigneesDisplay.length)).foldl max 0
    let maxDurationLength := (assigned.map (fun r => r.durationHuman.length)).foldl max 0
    let body := String.join (assigned.enum.map
      (fun p => issueEntry maxNameLength maxDurationLength (p.1 + 1 < assigned.length) p.2))
    body ++ "\nEvery PR should be reviewed within 3 days."
      ++ "\nPlease look to your assigned issues and comment in the thread if there's any blocker or reason for the delay."
  else
    allClearMessage

/-- The webhook decision of src/main.ts: with no qualifying issues and
sendEmptyReport false the send is skipped; otherwise one POST is made whose
body is the composed text. -/
def webhookBody (records : List IssueDurationRecord) (sendEmptyReport : Bool) :
    Option String :=
  let assigned := assignedIssues records
  if assigned.length == 0 && !sendEmptyReport then none
  else some (buildTextSummary assigned)

/-- The guarded fetch of the webhook: a transport error is a thrown error, a
non-2xx response is turned into a thrown error by the response.ok check. -/
def webhookAttempt (delivery : Except String Nat) : Except String Unit :=
  match delivery with
  | Except.error e => Except.error e
  | Except.ok status =>
    if 200 ≤ status ∧ status < 300 then Except.ok ()
    else Except.error ("Webhook request failed with status " ++ toString status)

/-- The tail of the state-aware run: the dataset push precedes the webhook
try/catch, the catch only logs, and the state update and save follow it. -/
def runTail (records : List IssueDurationRecord) (prev : PersistedState)
    (snapshots : List IssuePipelineSnapshot) (nowIso : String)
    (delivery : Except String Nat) :
    Except String (List IssueDurationRecord × PersistedState) :=
  match webhookAttempt delivery with
  | Except.ok _ => Except.ok (records, updateState prev snapshots nowIso)
  | Except.error _ => Except.ok (records, updateState prev snapshots nowIso)

/-! Theorems. -/

theorem msToMinutes_eq_floor (ms : Int) : msToMinutes ms = ⌊(ms : ℚ) / 60000⌋ := by
  unfold msToMinutes
  rw [Int.fdiv_eq_ediv ms (by decide)]
  rw [show ((60000 : ℚ)) = ((60000 : ℕ) : ℚ) from by norm_num]
  rw [Rat.floor_intCast_div_natCast]
  norm_num

/-- C3: durationMs is the raw difference of the wall clock and the parsed
entry timestamp, negative values pass through unclamped, durationMinutes is
the floor of durationMs/60000, and durationHours is durationMs/3600000
rounded to two decimals. -/
theorem c3_duration_fields (parseIso : String → Int) (nowMs : Int)
    (s : IssuePipelineSnapshot) :
    (mkDurationRecord parseIso nowMs s).durationMs = nowMs - parseIso s.pipelineEnteredAt
    ∧ (nowMs < parseIso s.pipelineEnteredAt →
        (mkDurationRecord parseIso nowMs s).durationMs < 0)
    ∧ (mkDurationRecord parseIso nowMs s).durationMinutes
        = ⌊((mkDurationRecord parseIso nowMs s).durationMs : ℚ) / 60000⌋
    ∧ (mkDurationRecord parseIso nowMs s).durationHours
        = ((round (((mkDurationRecord parseIso nowMs s).durationMs : ℚ) / 3600000 * 100) : ℤ) : ℚ)
            / 100 := by
  refine ⟨rfl, ?_, msToMinutes_eq_floor _, rfl⟩
  intro hlt
  have hms : (mkDurationRecord parseIso nowMs s).durationMs
      = nowMs - parseIso s.pipelineEnteredAt := rfl
  omega

/-- C3 witness: a concrete snapshot parsed one minute past the scan time
yields a negative, unclamped duration. -/
theorem c3_witness :
    (mkDurationRecord (fun _ => 60000) 0
      { issueNumber := 1, repo := { owner := "o", name := "r" }, title := "w",
        assignees := [], pipeline := "Review",
        pipelineEnteredAt := "2025-01-01T00:01:00Z", updatedAt := "2025-01-01T00:00:00Z",
        type := "GithubIssue", state := "OPEN", createdAt := "2025-01-01T00:00:00Z",
        isPullRequest := false, isDraft := none }).durationMs < 0 :=
  (c3_duration_fields (fun _ => 60000) 0
    { issueNumber := 1, repo := { owner := "o", name := "r" }, title := "w",
      assignees := [], pipeline := "Review",
      pipelineEnteredAt := "2025-01-01T00:01:00Z", updatedAt := "2025-01-01T00:00:00Z",
      type := "GithubIssue", state := "OPEN", createdAt := "2025-01-01T00:00:00Z",
      isPullRequest := false, isDraft := none }).2.1 (by decide)

theorem toString_intCast_nat (n : Nat) : toString ((n : Int)) = toString n := rfl

/-- Closed form of humanDuration on a day/hour/minute decomposition. -/
theorem humanDuration_decompose (d h m : Nat) (hh : h < 24) (hm : m < 60) :
    humanDuration (((d * 1440 + h * 60 + m) * 60000 : Nat) : Int)
      = String.intercalate " "
          ((if d ≠ 0 then [toString d ++ "d"] else [])
            ++ (if h ≠ 0 then [toString h ++ "h"] else [])
            ++ [toString m ++ "m"]) := by
  have hX : (((d * 1440 + h * 60 + m) * 60000 : Nat) : Int)
      = ((d : Int) * 1440 + (h : Int) * 60 + (m : Int)) * 60000 := by
    push_cast
    ring
  have hh2 : (h : Int) < 24 := by exact_mod_cast hh
  have hm2 : (m : Int) < 60 := by exact_mod_cast hm
  have hd0 : (0 : Int) ≤ (d : Int) := Int.natCast_nonneg d
  have hh0 : (0 : Int) ≤ (h : Int) := Int.natCast_nonneg h
  have hm0 : (0 : Int) ≤ (m : Int) := Int.natCast_nonneg m
  have h1 : Int.fdiv (((d : Int) * 1440 + (h : Int) * 60 + (m : Int)) * 60000) 60000
      = (d : Int) * 1440 + (h : Int) * 60 + (m : Int) :=
    Int.mul_fdiv_cancel _ (by decide)
  have h2 : Int.fdiv ((d : Int) * 1440 + (h : Int) * 60 + (m : Int)) (60 * 24) = (d : Int) := by
    rw [Int.fdiv_eq_ediv _ (by decide)]
    omega
  have h3 : Int.fdiv ((d : Int) * 1440 + (h : Int) * 60 + (m : Int) - (d : Int) * 24 * 60) 60
      = (h : Int) := by
    rw [Int.fdiv_eq_ediv _ (by decide)]
    omega
  have h4 : Int.tmod ((d : Int) * 1440 + (h : Int) * 60 + (m : Int)) 60 = (m : Int) := by
    rw [Int.tmod_eq_emod (by omega) (by decide)]
    omega
  simp only [humanDuration, hX, h1, h2, h3, h4]
  simp only [ne_eq, Int.natCast_eq_zero, toString_intCast_nat]

/-- C4: humanDuration renders a days/hours/minutes decomposition with
zero-valued day and hour components omitted and minutes always shown, and
evaluates as specified on the three given inputs. -/
theorem c4_humanDuration_format :
    (∀ d h m : Nat, h < 24 → m < 60 →
      humanDuration (((d * 1440 + h * 60 + m) * 60000 : Nat) : Int)
        = String.intercalate " "
            ((if d ≠ 0 then [toString d ++ "d"] else [])
              ++ (if h ≠ 0 then [toString h ++ "h"] else [])
              ++ [toString m ++ "m"]))
    ∧ humanDuration (17 * 60000) = "17m"
    ∧ humanDuration (2 * 3600000 + 5 * 60000) = "2h 5m"
    ∧ humanDuration (1 * 24 * 3600000 + 3 * 3600000 + 10 * 60000) = "1d 3h 10m" :=
  ⟨humanDuration_decompose, by rfl, by rfl, by rfl⟩

/-- C4 witness: the decomposition at 1 day, 3 hours, 10 minutes. -/
theorem c4_witness :
    humanDuration (((1 * 1440 + 3 * 60 + 10) * 60000 : Nat) : Int)
      = String.intercalate " "
          ((if (1 : Nat) ≠ 0 then [toString (1 : Nat) ++ "d"] else [])
            ++ (if (3 : Nat) ≠ 0 then [toString (3 : Nat) ++ "h"] else [])
            ++ [toString (10 : Nat) ++ "m"]) :=
  c4_humanDuration_format.1 1 3 10 (by decide) (by decide)

/-- C9: whatever the webhook delivery outcome (thrown transport error or any
response status), the run tail completes without error and returns the dataset
and the updated persisted state unchanged. -/
theorem c9_webhook_failure (records : List IssueDurationRecord)
    (prev : PersistedState) (snapshots : List IssuePipelineSnapshot)
    (nowIso : String) (delivery : Except String Nat) :
    runTail records prev snapshots nowIso delivery
      = Except.ok (records, updateState prev snapshots nowIso) := by
  unfold runTail
  cases webhookAttempt delivery with
  | ok _ => rfl
  | error _ => rfl

/-- C10: every snapshot produced by the REST-mode mapper is an open,
non-pull-request ZenhubIssue with undefined draft state and createdAt equal to
the scan time, so the pull-request exclusion of the notification filter never
applies to a record built from it. -/
theorem c10_mapRawToSnapshot (repo : RepoRef) (raw : ZenHubIssueRaw)
    (nowIso fallbackEnteredAt : String) (parseIso : String → Int) (nowMs : Int) :
    (mapRawToSnapshot repo raw nowIso fallbackEnteredAt).isPullRequest = false
    ∧ (mapRawToSnapshot repo raw nowIso fallbackEnteredAt).state = "OPEN"
    ∧ (mapRawToSnapshot repo raw nowIso fallbackEnteredAt).type = "ZenhubIssue"
    ∧ (mapRawToSnapshot repo raw nowIso fallbackEnteredAt).isDraft = none
    ∧ (mapRawToSnapshot repo raw nowIso fallbackEnteredAt).createdAt = nowIso
    ∧ (mkDurationRecord parseIso nowMs
        (mapRawToSnapshot repo raw nowIso fallbackEnteredAt)).isPullRequest = false
    ∧ (!(mkDurationRecord parseIso nowMs
        (mapRawToSnapshot repo raw nowIso fallbackEnteredAt)).isPullRequest) = true :=
  ⟨rfl, rfl, rfl, rfl, rfl, rfl, rfl⟩

/-- C5: the output is sorted by durationMs descending, adjacent pairs are
non-increasing, and any two records of equal duration keep their encounter
order (every sorted sublist of the input survives, by stability of the sort). -/
theorem c5_ranking (records : List IssueDurationRecord) :
    (sortRecords records).Pairwise (fun a b => b.durationMs ≤ a.durationMs)
    ∧ (∀ i, (hi : i + 1 < (sortRecords records).length) →
        (sortRecords records)[i + 1].durationMs ≤ (sortRecords records)[i].durationMs)
    ∧ (∀ a b, List.Sublist [a, b] records → a.durationMs = b.durationMs →
        List.Sublist [a, b] (sortRecords records)) := by
  have htrans : ∀ a b c : IssueDurationRecord,
      decide (b.durationMs ≤ a.durationMs) = true →
      decide (c.durationMs ≤ b.durationMs) = true →
      decide (c.durationMs ≤ a.durationMs) = true := by
    intro a b c hab hbc
    simp only [decide_eq_true_eq] at *
    exact le_trans hbc hab
  have htotal : ∀ a b : IssueDurationRecord,
      (decide (b.durationMs ≤ a.durationMs) || decide (a.durationMs ≤ b.durationMs)) = true := by
    intro a b
    rcases le_total b.durationMs a.durationMs with hle | hle <;> simp [hle]
  have hpair : (sortRecords records).Pairwise (fun a b => b.durationMs ≤ a.durationMs) := by
    have hs := List.sorted_mergeSort htrans htotal records
    exact hs.imp (fun hab => of_decide_eq_true hab)
  refine ⟨hpair, ?_, ?_⟩
  · intro i hi
    exact List.pairwise_iff_getElem.mp hpair i (i + 1) (by omega) hi (by omega)
  · intro a b hsub heq
    exact List.pair_sublist_mergeSort htrans htotal (by simp [heq]) hsub

def snapC5a : IssuePipelineSnapshot :=
  { issueNumber := 1, repo := { owner := "o", name := "r" }, title := "first",
    assignees := [], pipeline := "Review",
    pipelineEnteredAt := "2025-01-01T00:00:00Z", updatedAt := "2025-01-01T00:00:00Z",
    type := "GithubIssue", state := "OPEN", createdAt := "2025-01-01T00:00:00Z",
    isPullRequest := false, isDraft := none }

def snapC5b : IssuePipelineSnapshot :=
  { snapC5a with issueNumber := 2, title := "second" }

def recC5a : IssueDurationRecord := mkDurationRecord (fun _ => 0) 1000 snapC5a

def recC5b : IssueDurationRecord := mkDurationRecord (fun _ => 0) 1000 snapC5b

/-- C5 witness: two equal-duration records keep their encounter order. -/
theorem c5_witness : List.Sublist [recC5a, recC5b] (sortRecords [recC5a, recC5b]) :=
  (c5_ranking [recC5a, recC5b]).2.2 recC5a recC5b (List.Sublist.refl _) rfl

theorem applySnapshots_not_mem (issues : String → Option IssuePipelineSnapshot)
    (snapshots : List IssuePipelineSnapshot) (k : String)
    (hk : k ∉ snapshots.map (fun s => makeIssueKey s.repo s.issueNumber)) :
    applySnapshots issues snapshots k = issues k := by
  induction snapshots generalizing issues with
  | nil => rfl
  | cons t rest ih =>
    simp only [List.map_cons, List.mem_cons, not_or] at hk
    show applySnapshots
      (fun x => if x = makeIssueKey t.repo t.issueNumber then some t else issues x) rest k
      = issues k
    rw [ih _ (by simpa using hk.2)]
    simp [hk.1]

theorem applySnapshots_mem (snapshots : List IssuePipelineSnapshot)
    (issues : String → Option IssuePipelineSnapshot)
    (hkeys : (snapshots.map (fun s => makeIssueKey s.repo s.issueNumber)).Nodup)
    (s : IssuePipelineSnapshot) (hs : s ∈ snapshots) :
    applySnapshots issues snapshots (makeIssueKey s.repo s.issueNumber) = some s := by
  revert hkeys hs
  induction snapshots generalizing issues with
  | nil =>
    intro _ hs
    cases hs
  | cons t rest ih =>
    intro hkeys hs
    simp only [List.map_cons, List.nodup_cons] at hkeys
    rcases List.mem_cons.mp hs with rfl | hs2
    · show applySnapshots
        (fun x => if x = makeIssueKey s.repo s.issueNumber then some s else issues x) rest
        (makeIssueKey s.repo s.issueNumber) = some s
      rw [applySnapshots_not_mem _ _ _ hkeys.1]
      simp
    · show applySnapshots
        (fun x => if x = makeIssueKey t.repo t.issueNumber then some t else issues x) rest
        (makeIssueKey s.repo s.issueNumber) = some s
      exact ih _ hkeys.2 hs2

/-- C6: updateState maps the key of every new snapshot to that snapshot,
carries every untouched key over from the previous state unchanged, sets lastRun to
the current time and keeps the schema version; as a pure function it leaves
its input state untouched. New snapshots are assumed to carry pairwise
distinct keys: with duplicates the JS loop keeps the last write. -/
theorem c6_updateState (prev : PersistedState) (snapshots : List IssuePipelineSnapshot)
    (nowIso : String)
    (hkeys : (snapshots.map (fun s => makeIssueKey s.repo s.issueNumber)).Nodup) :
    (∀ s ∈ snapshots,
      (updateState prev snapshots nowIso).issues (makeIssueKey s.repo s.issueNumber) = some s)
    ∧ (∀ k, k ∉ snapshots.map (fun s => makeIssueKey s.repo s.issueNumber) →
        (updateState prev snapshots nowIso).issues k = prev.issues k)
    ∧ (updateState prev snapshots nowIso).lastRun = some nowIso
    ∧ (updateState prev snapshots nowIso).schemaVersion = prev.schemaVersion :=
  ⟨fun s hs => applySnapshots_mem snapshots prev.issues hkeys s hs,
   fun k hk => applySnapshots_not_mem prev.issues snapshots k hk,
   rfl, rfl⟩

def snapC6 : IssuePipelineSnapshot :=
  { issueNumber := 1, repo := { owner := "o", name := "r" }, title := "new",
    assignees := [], pipeline := "Review",
    pipelineEnteredAt := "2025-03-01T00:00:00Z", updatedAt := "2025-03-01T00:00:00Z",
    type := "GithubIssue", state := "OPEN", createdAt := "2025-02-01T00:00:00Z",
    isPullRequest := false, isDraft := none }

def snapC6old : IssuePipelineSnapshot :=
  { snapC6 with issueNumber := 2, title := "old" }

def prevC6 : PersistedState :=
  { issues := fun k => if k = "o/r#2" then some snapC6old else none,
    lastRun := some "2025-02-01T00:00:00Z", schemaVersion := 1 }

/-- C6 witness: a concrete update overwrites the new key, carries the
untouched key over, and stamps lastRun. -/
theorem c6_witness :
    (updateState prevC6 [snapC6] "2025-03-02T00:00:00Z").issues "o/r#1" = some snapC6
    ∧ (updateState prevC6 [snapC6] "2025-03-02T00:00:00Z").issues "o/r#2"
        = prevC6.issues "o/r#2"
    ∧ (updateState prevC6 [snapC6] "2025-03-02T00:00:00Z").lastRun
        = some "2025-03-02T00:00:00Z" :=
  ⟨(c6_updateState prevC6 [snapC6] "2025-03-02T00:00:00Z" (by decide)).1 snapC6
      (List.mem_singleton.mpr rfl),
   (c6_updateState prevC6 [snapC6] "2025-03-02T00:00:00Z" (by decide)).2.1 "o/r#2"
      (by decide),
   (c6_updateState prevC6 [snapC6] "2025-03-02T00:00:00Z" (by decide)).2.2.1⟩

def exSnapshotC1 : IssuePipelineSnapshot :=
  { issueNumber := 7, repo := { owner := "o", name := "r" }, title := "persisted",
    assignees := [], pipeline := "Review",
    pipelineEnteredAt := "2025-01-01T00:00:00Z", updatedAt := "2025-01-02T00:00:00Z",
    type := "GithubIssue", state := "OPEN", createdAt := "2024-12-01T00:00:00Z",
    isPullRequest := false, isDraft := none }

def stateC1 : PersistedState :=
  { issues := fun k => if k = "o/r#7" then some exSnapshotC1 else none,
    lastRun := some "2025-01-02T00:00:00Z", schemaVersion := 1 }

def nodeC1 : WorkspaceIssueNode :=
  { number := 7, title := "persisted", type := "GithubIssue", state := "OPEN",
    createdAt := "2024-12-01T00:00:00Z", updatedAt := "2025-01-04T00:00:00Z",
    pullRequest := false, repoOwner := "o", repoName := "r", assigneeLogins := [],
    pipelineName := some "Review" }

/-- C1 counterexample: on the GraphQL path a failed transition-history fetch
substitutes the item's updatedAt, so a same-stage persisted snapshot with a
different pipelineEnteredAt is ignored and the resolved timestamp equals
neither the persisted value nor the scan time, although no direct transition
timestamp was available. -/
theorem c1_counterexample :
    findExistingSnapshot stateC1 { owner := "o", name := "r" } 7 = some exSnapshotC1
    ∧ exSnapshotC1.pipeline = "Review"
    ∧ exSnapshotC1.pipelineEnteredAt = "2025-01-01T00:00:00Z"
    ∧ (processGraphQLItem ["Review"] false stateC1 nodeC1 none
        (Except.error "timeline query failed") "2025-01-05T00:00:00Z").map
        (fun s => s.pipelineEnteredAt) = some "2025-01-04T00:00:00Z"
    ∧ ("2025-01-04T00:00:00Z" : String) ≠ "2025-01-01T00:00:00Z"
    ∧ ("2025-01-04T00:00:00Z" : String) ≠ "2025-01-05T00:00:00Z" :=
  ⟨rfl, rfl, rfl, rfl, by decide, by decide⟩

/-- C1 (amended): the resolution expression follows the priority chain: a
truthy direct timestamp is used verbatim, otherwise a same-stage persisted
snapshot's pipelineEnteredAt, otherwise the scan time; on the REST path a
failed events fetch leaves no direct timestamp (so the chain applies), while
on the GraphQL path a failed timeline fetch substitutes node.updatedAt as the
direct timestamp, bypassing the persisted and now fallbacks. -/
theorem c1_timestamp_resolution (enteredAt : Option String)
    (existing : Option IssuePipelineSnapshot) (currentPipeline nowIso : String) :
    (∀ t, enteredAt = some t → t ≠ "" →
      resolveFallbackEnteredAt enteredAt existing currentPipeline nowIso = t)
    ∧ (truthyStr enteredAt = false →
        ∀ ex, existing = some ex → ex.pipeline = currentPipeline →
          resolveFallbackEnteredAt enteredAt existing currentPipeline nowIso
            = ex.pipelineEnteredAt)
    ∧ (truthyStr enteredAt = false →
        (existing = none ∨ ∃ ex, existing = some ex ∧ ex.pipeline ≠ currentPipeline) →
          resolveFallbackEnteredAt enteredAt existing currentPipeline nowIso = nowIso)
    ∧ (∀ (e : String) (node : WorkspaceIssueNode),
        graphqlEnteredAt (Except.error e) node currentPipeline = some node.updatedAt)
    ∧ (∀ (e : String) (raw : ZenHubIssueRaw),
        restEnteredAt (some (Except.error e)) raw.pipeline = none) := by
  refine ⟨?_, ?_, ?_, fun _ _ => rfl, fun _ _ => rfl⟩
  · rintro t rfl ht
    simp [resolveFallbackEnteredAt, jsOrStr, ht]
  · intro htr ex hex hpipe
    subst hex
    cases enteredAt with
    | none => simp [resolveFallbackEnteredAt, jsOrStr, hpipe]
    | some v =>
      have hv : v = "" := by simpa [truthyStr] using htr
      simp [resolveFallbackEnteredAt, jsOrStr, hv, hpipe]
  · intro htr hcase
    cases existing with
    | none =>
      cases enteredAt with
      | none => rfl
      | some v =>
        have hv : v = "" := by simpa [truthyStr] using htr
        simp [resolveFallbackEnteredAt, jsOrStr, hv]
    | some ex =>
      have hne : ex.pipeline ≠ currentPipeline := by
        rcases hcase with h | ⟨ex2, hex2, hne2⟩
        · exact absurd h (by simp)
        · cases Option.some.inj hex2
          exact hne2
      cases enteredAt with
      | none => simp [resolveFallbackEnteredAt, jsOrStr, hne]
      | some v =>
        have hv : v = "" := by simpa [truthyStr] using htr
        simp [resolveFallbackEnteredAt, jsOrStr, hv, hne]

/-- C1 witness: the three chain cases at concrete inputs. -/
theorem c1_witness :
    resolveFallbackEnteredAt (some "2025-01-03T00:00:00Z") (some exSnapshotC1) "Review"
        "2025-01-05T00:00:00Z" = "2025-01-03T00:00:00Z"
    ∧ resolveFallbackEnteredAt none (some exSnapshotC1) "Review" "2025-01-05T00:00:00Z"
        = "2025-01-01T00:00:00Z"
    ∧ resolveFallbackEnteredAt none (some exSnapshotC1) "QA" "2025-01-05T00:00:00Z"
        = "2025-01-05T00:00:00Z" :=
  ⟨(c1_timestamp_resolution (some "2025-01-03T00:00:00Z") (some exSnapshotC1) "Review"
      "2025-01-05T00:00:00Z").1 "2025-01-03T00:00:00Z" rfl (by decide),
   (c1_timestamp_resolution none (some exSnapshotC1) "Review" "2025-01-05T00:00:00Z").2.1
      rfl exSnapshotC1 rfl rfl,
   (c1_timestamp_resolution none (some exSnapshotC1) "QA" "2025-01-05T00:00:00Z").2.2.1
      rfl (Or.inr ⟨exSnapshotC1, rfl, by decide⟩)⟩

def nodeC2 : WorkspaceIssueNode :=
  { number := 21, title := "strict", type := "GithubIssue", state := "OPEN",
    createdAt := "2025-02-01T00:00:00Z", updatedAt := "2025-02-02T00:00:00Z",
    pullRequest := false, repoOwner := "o", repoName := "r", assigneeLogins := [],
    pipelineName := some "Review" }

/-- C2 counterexample: with strictPipelineTimestamp on, a GraphQL item whose
transition-history fetch failed is not dropped: the catch block substitutes
updatedAt, the strict check sees a truthy timestamp, and the snapshot is
emitted with pipelineEnteredAt equal to updatedAt. -/
theorem c2_counterexample :
    (processGraphQLItem ["Review"] true emptyPersistedState nodeC2 none
        (Except.error "timeline query failed") "2025-02-03T00:00:00Z").isSome = true
    ∧ (processGraphQLItem ["Review"] true emptyPersistedState nodeC2 none
        (Except.error "timeline query failed") "2025-02-03T00:00:00Z").map
        (fun s => s.pipelineEnteredAt) = some "2025-02-02T00:00:00Z" :=
  ⟨rfl, rfl⟩

/-- C2 (amended): in strict mode an item whose direct timestamp slot is not
truthy is dropped; on the REST path this covers a failed events fetch and a
history without a matching transfer event, and on the GraphQL path a
successful fetch without a matching transfer event; a GraphQL item whose
timeline fetch failed instead proceeds with updatedAt as its timestamp
whenever updatedAt is non-empty. -/
theorem c2_strict_mode :
    (∀ (targetPipelines : List String) (prevState : PersistedState) (repo : RepoRef)
        (raw : ZenHubIssueRaw) (eventsResult : Option (Except String (List ZenHubEvent)))
        (nowIso : String),
        truthyStr (restEnteredAt eventsResult raw.pipeline) = false →
        processRestItem targetPipelines true prevState repo raw eventsResult nowIso = none)
    ∧ (∀ (targetPipelines : List String) (prevState : PersistedState)
        (node : WorkspaceIssueNode) (isDraft : Option Bool)
        (events : List TransferEventNode) (nowIso currentPipeline : String),
        node.pipelineName = some currentPipeline →
        truthyStr (extractPipelineEnteredAtFromTimeline events currentPipeline) = false →
        processGraphQLItem targetPipelines true prevState node isDraft
          (Except.ok events) nowIso = none)
    ∧ (∀ (targetPipelines : List String) (prevState : PersistedState)
        (node : WorkspaceIssueNode) (isDraft : Option Bool) (e : String)
        (nowIso currentPipeline : String),
        node.pipelineName = some currentPipeline →
        (currentPipeline == "" || !(targetPipelines.contains currentPipeline)) = false →
        node.updatedAt ≠ "" →
        (processGraphQLItem targetPipelines true prevState node isDraft
          (Except.error e) nowIso).map (fun s => s.pipelineEnteredAt)
          = some node.updatedAt) := by
  refine ⟨?_, ?_, ?_⟩
  · intro tp st repo raw er nowIso htr
    unfold processRestItem
    by_cases hscope : tp.contains raw.pipeline
    · simp [hscope, htr]
    · simp [hscope]
      exact fun _ => htr
  · intro tp st node d events nowIso cp hp htr
    unfold processGraphQLItem
    rw [hp]
    by_cases hscope : (cp == "" || !(tp.contains cp)) = true
    · simp [hscope]
      intro _ _
      simpa [graphqlEnteredAt] using htr
    · simp only [Bool.not_eq_true] at hscope
      simp [hscope, graphqlEnteredAt, htr]
  · intro tp st node d e nowIso cp hp hscope hne
    unfold processGraphQLItem
    rw [hp]
    simp only [Bool.or_eq_false_iff, Bool.not_eq_true', beq_eq_false_iff_ne, ne_eq,
      Bool.not_eq_false] at hscope
    have hmem : cp ∈ tp := by simpa using hscope.2
    simp [graphqlEnteredAt, truthyStr, resolveFallbackEnteredAt, jsOrStr, hne,
      hscope.1, hmem]

/-- C2 witness: a REST item whose events fetch failed is dropped in strict
mode; a GraphQL item whose timeline fetch failed survives strict mode with
updatedAt as its timestamp. -/
theorem c2_witness :
    processRestItem ["Review"] true emptyPersistedState { owner := "o", name := "r" }
        { issueNumber := 22, title := "rest", assignees := [], pipeline := "Review",
          pipelineEnteredAt := none }
        (some (Except.error "events fetch failed")) "2025-02-03T00:00:00Z" = none
    ∧ (processGraphQLItem ["Review"] true emptyPersistedState nodeC2 none
        (Except.error "x") "2025-02-03T00:00:00Z").map (fun s => s.pipelineEnteredAt)
      = some nodeC2.updatedAt :=
  ⟨c2_strict_mode.1 ["Review"] emptyPersistedState { owner := "o", name := "r" }
      { issueNumber := 22, title := "rest", assignees := [], pipeline := "Review",
        pipelineEnteredAt := none }
      (some (Except.error "events fetch failed")) "2025-02-03T00:00:00Z" rfl,
   c2_strict_mode.2.2 ["Review"] emptyPersistedState nodeC2 none "x"
      "2025-02-03T00:00:00Z" "Review" rfl (by decide) (by decide)⟩

def snapC7 : IssuePipelineSnapshot :=
  { issueNumber := 11, repo := { owner := "o", name := "r" }, title := "boundary",
    assignees := ["alice"], pipeline := "Review",
    pipelineEnteredAt := "2025-01-01T00:00:00Z", updatedAt := "2025-01-04T00:00:00Z",
    type := "GithubIssue", state := "OPEN", createdAt := "2024-12-31T00:00:00Z",
    isPullRequest := false, isDraft := none }

def recC7 : IssueDurationRecord := mkDurationRecord (fun _ => 0) 259200000 snapC7

theorem recC7_durationHours : recC7.durationHours = 72 := by
  show roundTo2 (msToHours ((259200000 : Int) - 0)) = 72
  unfold roundTo2 msToHours
  norm_num [round_eq]

/-- C7 counterexample: an assigned non-pull-request record at exactly the
three-day deadline is included in the alert although its elapsed time does not
exceed the threshold: the filter uses at-or-above, not strictly-exceeds. -/
theorem c7_counterexample :
    recC7 ∈ assignedIssues [recC7]
    ∧ ¬ (REVIEW_DEADLINE_DAYS < recC7.durationHours / 24) := by
  have hq : qualifiesForAlert recC7 = true := by
    unfold qualifiesForAlert
    rw [recC7_durationHours]
    rw [decide_eq_true
      (by norm_num [REVIEW_DEADLINE_DAYS] : REVIEW_DEADLINE_DAYS ≤ (72 : ℚ) / 24)]
    rfl
  refine ⟨List.mem_filter.mpr ⟨List.mem_singleton.mpr rfl, hq⟩, ?_⟩
  rw [recC7_durationHours]
  norm_num [REVIEW_DEADLINE_DAYS]

/-- C7 (amended): a record is in the alert filter output iff it is among the
input records, has at least one assignee, is not a pull request, and its
elapsed days are at or above (greater than or equal to) the review deadline. -/
theorem c7_alert_filter (records : List IssueDurationRecord) (r : IssueDurationRecord) :
    r ∈ assignedIssues records ↔
      r ∈ records ∧ 0 < r.assigneesCount ∧ r.isPullRequest = false
        ∧ REVIEW_DEADLINE_DAYS ≤ r.durationHours / 24 := by
  simp [assignedIssues, qualifiesForAlert, List.mem_filter, and_assoc,
    Bool.and_eq_true, decide_eq_true_eq, Bool.not_eq_true']

/-- C7 witness: the boundary record is in the filter output by the amended
characterization. -/
theorem c7_witness : recC7 ∈ assignedIssues [recC7] :=
  (c7_alert_filter [recC7] recC7).mpr
    ⟨List.mem_singleton.mpr rfl, by norm_num [recC7, mkDurationRecord, snapC7], rfl,
     by rw [recC7_durationHours]; norm_num [REVIEW_DEADLINE_DAYS]⟩

/-- C8: when no record qualifies, the webhook is skipped exactly when
sendEmptyReport is false, and otherwise exactly one call is made whose body is
the all-clear message, which contains the all-clear marker; the record list
computed from zero snapshots is empty. -/
theorem c8_empty_report (records : List IssueDurationRecord)
    (hempty : assignedIssues records = []) :
    webhookBody records false = none
    ∧ webhookBody records true = some allClearMessage
    ∧ (∃ pre post, allClearMessage = pre ++ "Great work" ++ post)
    ∧ (∀ (parseIso : String → Int) (nowMs : Int),
        sortRecords (([] : List IssuePipelineSnapshot).map (mkDurationRecord parseIso nowMs))
          = []) := by
  refine ⟨?_, ?_, ⟨"✅ ", "! All reviews are on track. 🎉", rfl⟩,
    fun _ _ => by simp [sortRecords]⟩
  · simp [webhookBody, hempty]
  · simp [webhookBody, hempty, buildTextSummary]

/-- C8 witness: the empty record list. -/
theorem c8_witness :
    webhookBody [] false = none ∧ webhookBody [] true = some allClearMessage :=
  ⟨(c8_empty_report [] rfl).1, (c8_empty_report [] rfl).2.1⟩
